import Mathlib

/-!
# Verification development for the University VC issuance service

Shallow embedding of the credential issuance / verification engine of the
repository (src/issuer.js, src/storage.js, src/fixedIssuer.js, src/helpers.js).

Modelling conventions:
* JS objects that the code reads by fixed fields become Lean structures;
  the open-ended `credentialSubject` object becomes an association list
  (`Obj`) with JavaScript object-literal semantics (later bindings of the
  same key overwrite the earlier value in place).
* Timestamps (`new Date()`, ISO date strings compared through `new Date(s)`)
  are modelled as `Nat` epoch values; ISO-8601 parsing is monotone, and the
  code only ever compares dates, so the order is all that matters.
* The file-per-student credential directory becomes an association list
  from student id to the stored record; a file write is an overwriting
  insert.
* The Veramo agent is an external dependency, not part of the repository:
  its `verifyCredential` is passed as an explicit function parameter
  (`some credential` when the signature verifies, `none` otherwise), its
  `createVerifiableCredential` as a signing function parameter, and the
  randomness consumed by `didManagerCreate` as an explicit parameter.
-/

namespace VCService

/-- A JavaScript object with string values, as an ordered association list.
Built only through `objInsert`, so keys are unique and keep their first
insertion position, as in a JS object literal. -/
abbrev Obj := List (String × String)

/-- JS object-literal update: a repeated key overwrites the value in place,
a new key is appended at the end. -/
def objInsert (o : Obj) (k v : String) : Obj :=
  if o.any (fun p => p.1 == k) then
    o.map (fun p => if p.1 == k then (k, v) else p)
  else
    o ++ [(k, v)]

/-- Build a JS object from a literal's entry list, in order. -/
def jsObjOfEntries (es : List (String × String)) : Obj :=
  es.foldl (fun o p => objInsert o p.1 p.2) []

/-- Property lookup on a JS object. -/
def objGet (o : Obj) (k : String) : Option String :=
  (o.find? (fun p => p.1 == k)).map (fun p => p.2)

/-- The `issuer` sub-object of a credential: `{ id, name }`. -/
structure IssuerRef where
  id : String
  name : String
deriving DecidableEq, Repr

/-- A W3C credential as built and read by the code (src/issuer.js lines
112-130, src/helpers.js lines 6-20).  The verification path reads
`expirationDate`, `credentialSubject`, `issuer` and `issuanceDate`. -/
structure Credential where
  context : List String
  types : List String
  id : String
  issuer : IssuerRef
  issuanceDate : Nat
  expirationDate : Option Nat
  credentialSubject : Obj
deriving DecidableEq, Repr

/-- A signed credential as returned by the agent: the credential plus the
compact JWT carried in `vc.proof.jwt`. -/
structure SignedVC where
  credential : Credential
  jwt : String
deriving DecidableEq, Repr

/-- The JSON record written per student by `saveVC` (src/storage.js lines
185-200): `{ studentId, credential, jwt, issuedAt, status }`, to which
`updateVCStatus` may add `statusUpdatedAt`. -/
structure StoredVC where
  studentId : String
  credential : Credential
  jwt : String
  issuedAt : Nat
  status : String
  statusUpdatedAt : Option Nat
deriving DecidableEq, Repr

/-- The credential directory (`.storage/credentials/`), one record per
student id, modelled as an association list keyed by student id. -/
abbrev Store := List (String × StoredVC)

/-- Function `loadVC` (src/storage.js lines 203-212): read the record file for the
student id, `none` when the file does not exist. -/
def loadVC (store : Store) (studentId : String) : Option StoredVC :=
  (store.find? (fun p => p.1 == studentId)).map (fun p => p.2)

/-- An overwriting file write of the record for one student id. -/
def writeVC (store : Store) (studentId : String) (rec : StoredVC) : Store :=
  (studentId, rec) :: store.filter (fun p => p.1 != studentId)

/-- Function `saveVC` (src/storage.js lines 185-200): write the record for the
student id with `status: 'active'`, a fresh `issuedAt`, and no
`statusUpdatedAt` field, overwriting any existing record. -/
def saveVC (store : Store) (studentId : String) (vc : SignedVC) (now : Nat) : Store :=
  writeVC store studentId
    { studentId := studentId
      credential := vc.credential
      jwt := vc.jwt
      issuedAt := now
      status := "active"
      statusUpdatedAt := none }

/-- Function `updateVCStatus` (src/storage.js lines 225-236): load the record; when
present, set `status` and `statusUpdatedAt` and write it back, returning
`true`; when absent, write nothing and return `false`. -/
def updateVCStatus (store : Store) (studentId status : String) (now : Nat) :
    Store × Bool :=
  match loadVC store studentId with
  | some vcData =>
      (writeVC store studentId
        { vcData with status := status, statusUpdatedAt := some now }, true)
  | none => (store, false)

/-- The result object of `verifyStudentCredential` (src/issuer.js lines
157-209); fields absent from a JS return branch are `none`. -/
structure VerifyResult where
  verified : Bool
  error : Option String := none
  expired : Option Bool := none
  statusActive : Option Bool := none
  credentialSubject : Option Obj := none
  issuer : Option IssuerRef := none
  issuanceDate : Option Nat := none
  expirationDate : Option Nat := none
deriving DecidableEq, Repr

/-- JS truthiness of the optional `jwtToken` argument (default `null`):
`null` and the empty string are falsy. -/
def jsFalsy : Option String → Bool
  | none => true
  | some s => s == ""

/-- Function `verifyStudentCredential` (src/issuer.js lines 157-209).

`agentVerifyCredential` stands for the external Veramo
`agent.verifyCredential` call (with the credential-status policy disabled):
it returns `some vc` exactly when the JWT's signature verifies, giving the
decoded credential, and `none` on any verification failure.  The failure
branch's error message (`verification.error?.message || 'Verification
failed'`) is modelled by the fixed fallback string. -/
def verifyStudentCredential (agentVerifyCredential : String → Option Credential)
    (store : Store) (studentId : String) (jwtToken : Option String) (now : Nat) :
    VerifyResult :=
  let jwt? : Option String :=
    if jsFalsy jwtToken then (loadVC store studentId).map (fun v => v.jwt)
    else jwtToken
  match jwt? with
  | none =>
      { verified := false
        error := some ("Credential not found for student ID: " ++ studentId) }
  | some jwt =>
      match agentVerifyCredential jwt with
      | none => { verified := false, error := some "Verification failed" }
      | some vc =>
          let expired : Bool :=
            match vc.expirationDate with
            | some expTime => decide (expTime < now)
            | none => false
          let statusActive : Bool :=
            match loadVC store studentId with
            | some vcData => vcData.status == "active"
            | none => true
          { verified := true
            expired := some expired
            statusActive := some statusActive
            credentialSubject := some vc.credentialSubject
            issuer := some vc.issuer
            issuanceDate := some vc.issuanceDate
            expirationDate := vc.expirationDate }

/-! ## Issuance (src/issuer.js lines 87-152) -/

/-- Constant `ISSUER_CONFIG.name` (src/issuer.js line 8). -/
def ISSUER_CONFIG_name : String := "Example University"

/-- Constant `ISSUER_CONFIG.location` (src/issuer.js line 9). -/
def ISSUER_CONFIG_location : String := "University Location"

/-- The `studentData` argument of `issueStudentCredential` (src/issuer.js
lines 88-97).  `directedBy` and `location` are optional and defaulted with
`||` in the source; `expiryDate` may be absent. -/
structure StudentData where
  studentId : String
  name : String
  title : String
  description : String
  dateOfIssue : String
  expiryDate : Option Nat
  directedBy : Option String
  location : Option String
deriving DecidableEq, Repr

/-- The credential built by `issueStudentCredential` (src/issuer.js lines
100-130): subject id `urn:university:student:<studentId>`, fixed contexts
and types, the fixed issuer name, `expirationDate := expiryDate`.  The
`expiryDate` claim value, an ISO string in the source, is rendered with
`toString` under the `Nat`-timestamp convention. -/
def buildStudentCredential (issuerDid : String) (sd : StudentData) (now : Nat) :
    Credential :=
  let credentialSubject : Obj := jsObjOfEntries
    [ ("id", "urn:university:student:" ++ sd.studentId)
    , ("name", sd.name)
    , ("title", sd.title)
    , ("description", sd.description)
    , ("dateOfIssue", sd.dateOfIssue)
    , ("expiryDate", toString sd.expiryDate)
    , ("directedBy", sd.directedBy.getD ISSUER_CONFIG_name)
    , ("location", sd.location.getD ISSUER_CONFIG_location) ]
  { context :=
      [ "https://www.w3.org/2018/credentials/v1"
      , "https://www.w3.org/2018/credentials/examples/v1" ]
    types := ["VerifiableCredential", "UniversityCardCredential"]
    id := "urn:credential:" ++ sd.studentId ++ "-" ++ toString now
    issuer := { id := issuerDid, name := ISSUER_CONFIG_name }
    issuanceDate := now
    expirationDate := sd.expiryDate
    credentialSubject := credentialSubject }

/-- Function `issueStudentCredential` (src/issuer.js lines 87-152): build the
credential, sign it through the agent (`signJwt` stands for the external
`agent.createVerifiableCredential` with `proofFormat: 'jwt'`), and persist
it with `saveVC`.  Returns the updated store and the signed credential. -/
def issueStudentCredential (signJwt : Credential → String) (issuerDid : String)
    (store : Store) (sd : StudentData) (now : Nat) : Store × SignedVC :=
  let credential := buildStudentCredential issuerDid sd now
  let vc : SignedVC := { credential := credential, jwt := signJwt credential }
  (saveVC store sd.studentId vc now, vc)

/-! ## Credential payload helper (src/helpers.js lines 6-20) -/

/-- Function `createCredentialPayload` (src/helpers.js lines 6-20).  The credential
subject is the JS object literal `{ id: subject.did, ...credentialData }`:
the subject id entry first, then the caller's claims spread over it, a
claim named `id` overwriting the injected subject id. -/
def createCredentialPayload (issuerDid subjectDid : String)
    (credentialData : List (String × String)) (now : Nat) : Credential :=
  { context :=
      [ "https://www.w3.org/2018/credentials/v1"
      , "https://www.w3.org/2018/credentials/examples/v1" ]
    types := ["VerifiableCredential", "UniversityDegreeCredential"]
    id := ""
    issuer := { id := issuerDid, name := "" }
    issuanceDate := now
    expirationDate := none
    credentialSubject := jsObjOfEntries (("id", subjectDid) :: credentialData) }

/-! ## Signature engine and token shape

The Ed25519 signing and verification themselves live in the Veramo / did-jwt
dependency, outside this repository.  Following the specification they are
idealized as a deterministic, unforgeable signature: `signStr` is injective
in the message for a fixed key, which is the spec's own reading of Ed25519
("except the astronomically unlikely case of a signature forgery
collision"). -/

/-- Modelled from the spec: SignatureEngine (§4.3).  Deterministic signing
of a message under a private key, idealized so that distinct messages have
distinct signatures and a signature determines its message. -/
def signStr (key msg : String) : String := key ++ ":" ++ msg

/-- The exact signing input of a compact JWT: `header ++ "." ++ payload`
over the base64url-encoded segments (spec §6 token wire format). -/
def signingInput (header payload : String) : String := header ++ "." ++ payload

/-- A compact token as its three `.`-separated segments. -/
structure Jwt where
  header : String
  payload : String
  sig : String
deriving DecidableEq, Repr

/-- Modelled from the spec: issuance of a token (SignatureEngine +
TokenCodec): the third segment signs the first two. -/
def mkSignedToken (key header payload : String) : Jwt :=
  { header := header, payload := payload
    sig := signStr key (signingInput header payload) }

/-- Modelled from the spec: the cryptographic verdict of
`agent.verifyCredential` on a decoded token — the signature segment must be
the issuer key's signature over the exact two-segment signing input. -/
def agentVerify (key : String) (t : Jwt) : Bool :=
  t.sig == signStr key (signingInput t.header t.payload)

/-- Replace the byte at position `i` of a segment (a single-byte flip when
the new byte differs from the old one). -/
def flipAt (s : String) (i : Nat) (c : Char) : String := ⟨s.data.set i c⟩

/-! ## Fixed issuer (src/fixedIssuer.js)

`seedToPrivateKey` is `sha256(seed)` in hex (src/fixedIssuer.js lines
13-16), with Node's `crypto.createHash('sha256')` embedded below as the
FIPS 180-4 SHA-256 over the seed's bytes. -/

/-- Truncate to a 32-bit word. -/
def w32 (x : Nat) : Nat := x % 4294967296

/-- Rotate the 32-bit word `x` right by `n` positions. -/
def rotr32 (n x : Nat) : Nat := w32 ((x >>> n) ||| (x <<< (32 - n)))

/-- SHA-256 σ₀. -/
def sSigma0 (x : Nat) : Nat := (rotr32 7 x) ^^^ (rotr32 18 x) ^^^ (x >>> 3)

/-- SHA-256 σ₁. -/
def sSigma1 (x : Nat) : Nat := (rotr32 17 x) ^^^ (rotr32 19 x) ^^^ (x >>> 10)

/-- SHA-256 Σ₀. -/
def bSigma0 (x : Nat) : Nat := (rotr32 2 x) ^^^ (rotr32 13 x) ^^^ (rotr32 22 x)

/-- SHA-256 Σ₁. -/
def bSigma1 (x : Nat) : Nat := (rotr32 6 x) ^^^ (rotr32 11 x) ^^^ (rotr32 25 x)

/-- The sixty-four SHA-256 round constants of FIPS 180-4, written in
decimal. -/
def sha256K : List Nat :=
  [ 1116352408, 1899447441, 3049323471, 3921009573
  , 961987163, 1508970993, 2453635748, 2870763221
  , 3624381080, 310598401, 607225278, 1426881987
  , 1925078388, 2162078206, 2614888103, 3248222580
  , 3835390401, 4022224774, 264347078, 604807628
  , 770255983, 1249150122, 1555081692, 1996064986
  , 2554220882, 2821834349, 2952996808, 3210313671
  , 3336571891, 3584528711, 113926993, 338241895
  , 666307205, 773529912, 1294757372, 1396182291
  , 1695183700, 1986661051, 2177026350, 2456956037
  , 2730485921, 2820302411, 3259730800, 3345764771
  , 3516065817, 3600352804, 4094571909, 275423344
  , 430227734, 506948616, 659060556, 883997877
  , 958139571, 1322822218, 1537002063, 1747873779
  , 1955562222, 2024104815, 2227730452, 2361852424
  , 2428436474, 2756734187, 3204031479, 3329325298 ]

/-- The eight words of the SHA-256 initial hash value, in decimal. -/
def sha256H0 : List Nat :=
  [ 1779033703, 3144134277, 1013904242, 2773480762
  , 1359893119, 2600822924, 528734635, 1541459225 ]

/-- Big-endian 8-byte encoding. -/
def be64 (n : Nat) : List Nat :=
  [ (n >>> 56) % 256, (n >>> 48) % 256, (n >>> 40) % 256, (n >>> 32) % 256
  , (n >>> 24) % 256, (n >>> 16) % 256, (n >>> 8) % 256, n % 256 ]

/-- Big-endian 4-byte encoding. -/
def be32 (n : Nat) : List Nat :=
  [ (n >>> 24) % 256, (n >>> 16) % 256, (n >>> 8) % 256, n % 256 ]

/-- SHA-256 padding: append `0x80`, zeros to 56 mod 64, and the 64-bit
big-endian bit length. -/
def sha256Pad (msg : List Nat) : List Nat :=
  msg ++ [0x80] ++ List.replicate ((119 - (msg.length % 64)) % 64) 0
    ++ be64 (msg.length * 8)

/-- Pack big-endian 4-byte groups into 32-bit words. -/
def bytesToWords : List Nat → List Nat
  | a :: b :: c :: d :: rest =>
      ((a <<< 24) ||| (b <<< 16) ||| (c <<< 8) ||| d) :: bytesToWords rest
  | _ => []

/-- Indexing with default 0 for the message schedule. -/
def lget (l : List Nat) (i : Nat) : Nat := l.getD i 0

/-- Extend the 16-word block schedule by `n` further words. -/
def sha256Extend (w : List Nat) : Nat → List Nat
  | 0 => w
  | n + 1 =>
      let i := w.length
      let v := w32 (sSigma1 (lget w (i - 2)) + lget w (i - 7)
        + sSigma0 (lget w (i - 15)) + lget w (i - 16))
      sha256Extend (w ++ [v]) n

/-- One SHA-256 compression round over the eight working registers. -/
def sha256Round (regs : List Nat) (k w : Nat) : List Nat :=
  match regs with
  | [a, b, c, d, e, f, g, h] =>
      let ch := (e &&& f) ^^^ ((e ^^^ 4294967295) &&& g)
      let maj := (a &&& b) ^^^ (a &&& c) ^^^ (b &&& c)
      let t1 := w32 (h + bSigma1 e + ch + k + w)
      let t2 := w32 (bSigma0 a + maj)
      [w32 (t1 + t2), a, b, c, w32 (d + t1), e, f, g]
  | _ => regs

/-- Run the 64 compression rounds. -/
def sha256Rounds : List Nat → List Nat → List Nat → List Nat
  | regs, k :: ks, w :: ws => sha256Rounds (sha256Round regs k w) ks ws
  | regs, _, _ => regs

/-- Compress one 64-byte block into the chaining value. -/
def sha256Compress (h : List Nat) (block16 : List Nat) : List Nat :=
  let w := sha256Extend block16 48
  let regs := sha256Rounds h sha256K w
  List.zipWith (fun a b => w32 (a + b)) h regs

/-- Fold the compression function over the padded 64-byte blocks. -/
def sha256Blocks (h : List Nat) : List Nat → List Nat
  | [] => h
  | b :: bs =>
      sha256Blocks (sha256Compress h (bytesToWords ((b :: bs).take 64)))
        ((b :: bs).drop 64)
termination_by l => l.length
decreasing_by simp [List.length_drop]; omega

/-- SHA-256 of a byte sequence (FIPS 180-4). -/
def sha256 (msg : List Nat) : List Nat :=
  ((sha256Blocks sha256H0 (sha256Pad msg)).map be32).foldr (· ++ ·) []

/-- A nibble as a lowercase hex character. -/
def hexDigit (n : Nat) : Char :=
  if n < 10 then Char.ofNat (48 + n) else Char.ofNat (87 + n)

/-- Lowercase hex rendering of a byte sequence, as Node's
`hash.digest().toString('hex')`. -/
def toHexString (bs : List Nat) : String :=
  ⟨(bs.map (fun b => [hexDigit (b / 16), hexDigit (b % 16)])).foldr (· ++ ·) []⟩

/-- The bytes of a string; the seeds involved are ASCII, where UTF-8 bytes
coincide with the code points. -/
def strBytes (s : String) : List Nat := s.data.map Char.toNat

/-- Constant `UNIVERSITY_SEED` (src/fixedIssuer.js line 8). -/
def UNIVERSITY_SEED : String :=
  "university-master-seed-2026-thesis-research-fixed-issuer-key"

/-- Function `seedToPrivateKey` (src/fixedIssuer.js lines 13-16): the hex of the
SHA-256 hash of the seed. -/
def seedToPrivateKey (seed : String) : String := toHexString (sha256 (strBytes seed))

/-- The issuer record persisted by `saveIssuerKey` / read by
`loadIssuerKey` (src/storage.js lines 170-182); the code only ever reads
its `did` field, the descriptive metadata fields are omitted. -/
structure SavedIssuer where
  did : String
deriving DecidableEq, Repr

/-- The identity returned by the agent's DID manager; the callers read only
`issuer.did`. -/
structure IssuerIdent where
  did : String
deriving DecidableEq, Repr

/-- Modelled from the spec: the `did:key` identifier Veramo's
`didManagerCreate` derives from a freshly generated Ed25519 public key
(`prefix || multibase(public_key)`), with the generated key material made
explicit as a number. -/
def didFromKey (k : Nat) : String := "did:key:z" ++ toString k

/-- Function `getFixedIssuer` (src/fixedIssuer.js lines 22-84).

The Veramo agent is external; its operations are modelled as follows:
`keyManagerImport` of the seed-derived key succeeds (its stateful effect on
the agent's in-memory key store is not represented), `didManagerImport` of
a saved DID succeeds and returns that DID, and `didManagerCreate` generates
a fresh random Ed25519 keypair — the randomness it consumes is the explicit
`freshKey` parameter — and returns the `did:key` identifier of that new
key.  Returns the issuer identity together with the issuer-key file after
the call.

Note the source behaviour embedded here: the seed-derived
`privateKeyHex` is imported but the creation path derives the DID from
`didManagerCreate`'s own fresh key, not from the seed. -/
def getFixedIssuer (savedIssuer : Option SavedIssuer) (freshKey : Nat) :
    IssuerIdent × Option SavedIssuer :=
  let _privateKeyHex := seedToPrivateKey UNIVERSITY_SEED
  match savedIssuer with
  | some saved => ({ did := saved.did }, some saved)
  | none =>
      let issuer : IssuerIdent := { did := didFromKey freshKey }
      (issuer, some { did := issuer.did })

/-! ## Concrete demo values for witness instances -/

/-- A concrete credential for the subject `S1`, with a chosen expiration. -/
def demoCredential (expiry : Option Nat) : Credential :=
  { context := ["https://www.w3.org/2018/credentials/v1"]
    types := ["VerifiableCredential", "UniversityCardCredential"]
    id := "urn:credential:S1-0"
    issuer := { id := "did:key:zdemo", name := "Example University" }
    issuanceDate := 0
    expirationDate := expiry
    credentialSubject := [("id", "urn:university:student:S1")] }

/-- A concrete agent: the token string `demo-jwt` carries `demoCredential`
with a valid signature; every other string fails verification. -/
def demoAgent (expiry : Option Nat) : String → Option Credential :=
  fun jwt => if jwt == "demo-jwt" then some (demoCredential expiry) else none

/-- The stored record for `S1` holding the `demo-jwt` token, active. -/
def demoRecord (expiry : Option Nat) : StoredVC :=
  { studentId := "S1"
    credential := demoCredential expiry
    jwt := "demo-jwt"
    issuedAt := 0
    status := "active"
    statusUpdatedAt := none }

/-- A store holding exactly the record for `S1`. -/
def demoStore (expiry : Option Nat) : Store := [("S1", demoRecord expiry)]

/-! ## Helper lemmas -/

/-- Reading back the record just written for a student id. -/
theorem loadVC_writeVC_self (store : Store) (studentId : String) (rec : StoredVC) :
    loadVC (writeVC store studentId rec) studentId = some rec := by
  simp [loadVC, writeVC, List.find?]

/-- Appending on the right cancels for strings. -/
theorem string_append_cancel_right {a b c : String} (h : a ++ c = b ++ c) :
    a = b := by
  have hdata : a.data ++ c.data = b.data ++ c.data := by
    rw [← String.data_append, ← String.data_append, h]
  exact String.ext (List.append_cancel_right hdata)

/-- Appending on the left cancels for strings. -/
theorem string_append_cancel_left {a b c : String} (h : a ++ b = a ++ c) :
    b = c := by
  have hdata : a.data ++ b.data = a.data ++ c.data := by
    rw [← String.data_append, ← String.data_append, h]
  exact String.ext (List.append_cancel_left hdata)

/-- The idealized signature determines the signed message. -/
theorem signStr_inj (key : String) {m₁ m₂ : String}
    (h : signStr key m₁ = signStr key m₂) : m₁ = m₂ := by
  unfold signStr at h
  exact string_append_cancel_left h

/-- Changing exactly one segment of a validly signed token makes the
idealized signature check fail. -/
theorem agentVerify_segment_change (key hd pl hd' pl' sg' : String)
    (hmut : (hd' = hd ∧ pl' = pl ∧ sg' ≠ (mkSignedToken key hd pl).sig)
          ∨ (hd' ≠ hd ∧ pl' = pl ∧ sg' = (mkSignedToken key hd pl).sig)
          ∨ (hd' = hd ∧ pl' ≠ pl ∧ sg' = (mkSignedToken key hd pl).sig)) :
    agentVerify key { header := hd', payload := pl', sig := sg' } = false := by
  have hne : sg' ≠ signStr key (signingInput hd' pl') := by
    rcases hmut with ⟨h1, h2, h3⟩ | ⟨h1, h2, h3⟩ | ⟨h1, h2, h3⟩
    · subst h1; subst h2; exact h3
    · subst h2; subst h3
      intro hcontra
      apply h1
      have hmsg := signStr_inj key hcontra.symm
      unfold signingInput at hmsg
      exact string_append_cancel_right (string_append_cancel_right hmsg)
    · subst h1; subst h3
      intro hcontra
      apply h2
      have hmsg := signStr_inj key hcontra.symm
      unfold signingInput at hmsg
      exact string_append_cancel_left hmsg
  simp [agentVerify, hne]

/-- Replacing a byte by a different byte changes the segment string. -/
theorem flipAt_ne (s : String) (i : Nat) (c : Char) (hi : i < s.data.length)
    (hc : c ≠ s.data[i]) : flipAt s i c ≠ s := by
  intro he
  apply hc
  have hdata : s.data.set i c = s.data := congrArg String.data he
  have h1 : (s.data.set i c)[i]? = some c := List.getElem?_set_eq_of_lt c hi
  rw [hdata, List.getElem?_eq_getElem hi] at h1
  exact (Option.some.inj h1).symm

/-- Inserting a key different from the head key steps past the head. -/
theorem objInsert_cons_ne (a : String × String) (acc : Obj) (k v : String)
    (h : a.1 ≠ k) : objInsert (a :: acc) k v = a :: objInsert acc k v := by
  have hk : (a.1 == k) = false := beq_eq_false_iff_ne.mpr h
  cases ha : acc.any (fun p => p.1 == k) with
  | false => simp [objInsert, hk, ha]
  | true =>
      simp [objInsert, hk, ha]
      intro hak
      exact absurd hak h

/-- Folding object inserts whose keys all avoid the head entry's key keeps
the head entry in place. -/
theorem foldl_objInsert_cons (l : List (String × String)) (e : String × String)
    (acc : Obj) (h : ∀ p ∈ l, p.1 ≠ e.1) :
    l.foldl (fun o p => objInsert o p.1 p.2) (e :: acc)
      = e :: l.foldl (fun o p => objInsert o p.1 p.2) acc := by
  induction l generalizing acc with
  | nil => rfl
  | cons q qs ih =>
      simp only [List.foldl]
      rw [objInsert_cons_ne e acc q.1 q.2 (Ne.symm (h q (by simp)))]
      exact ih _ (fun p hp => h p (by simp [hp]))

/-! ## Claims about the verification pipeline -/

/-- C1: a stored token whose signature verifies and whose payload carries
an `expirationDate` strictly earlier than the verification time yields
`verified = true` together with `expired = true`; expiration alone never
turns the cryptographic verdict to `false`. -/
theorem verify_expired_stored_token (av : String → Option Credential)
    (store : Store) (studentId : String) (now t : Nat) (rec : StoredVC)
    (vc : Credential)
    (hrec : loadVC store studentId = some rec)
    (hsig : av rec.jwt = some vc)
    (hexp : vc.expirationDate = some t)
    (ht : t < now) :
    (verifyStudentCredential av store studentId none now).verified = true ∧
    (verifyStudentCredential av store studentId none now).expired = some true := by
  simp [verifyStudentCredential, jsFalsy, hrec, hsig, hexp, ht]

/-- Witness for C1: the stored `S1` token, expiring at time 100, verified
at time 200. -/
theorem verify_expired_stored_token_witness :
    (verifyStudentCredential (demoAgent (some 100)) (demoStore (some 100))
        "S1" none 200).verified = true ∧
    (verifyStudentCredential (demoAgent (some 100)) (demoStore (some 100))
        "S1" none 200).expired = some true :=
  verify_expired_stored_token (demoAgent (some 100)) (demoStore (some 100))
    "S1" 200 100 (demoRecord (some 100)) (demoCredential (some 100))
    (by decide) (by decide) (by decide) (by decide)

/-- C3: after the stored status of a subject is set to `revoked`, verifying
the stored token still returns `verified = true` (revocation does not touch
the cryptographic verdict) together with `status_active = false`. -/
theorem verify_revoked_status (av : String → Option Credential)
    (store : Store) (studentId : String) (now tu : Nat) (rec : StoredVC)
    (vc : Credential)
    (hrec : loadVC store studentId = some rec)
    (hsig : av rec.jwt = some vc) :
    (verifyStudentCredential av (updateVCStatus store studentId "revoked" tu).1
        studentId none now).verified = true ∧
    (verifyStudentCredential av (updateVCStatus store studentId "revoked" tu).1
        studentId none now).statusActive = some false := by
  have hload : loadVC (updateVCStatus store studentId "revoked" tu).1 studentId
      = some { rec with status := "revoked", statusUpdatedAt := some tu } := by
    simp only [updateVCStatus, hrec]
    exact loadVC_writeVC_self ..
  simp [verifyStudentCredential, jsFalsy, hload, hsig]

/-- Witness for C3: revoke `S1` at time 5, then verify the stored token at
time 50. -/
theorem verify_revoked_status_witness :
    (verifyStudentCredential (demoAgent none)
        (updateVCStatus (demoStore none) "S1" "revoked" 5).1
        "S1" none 50).verified = true ∧
    (verifyStudentCredential (demoAgent none)
        (updateVCStatus (demoStore none) "S1" "revoked" 5).1
        "S1" none 50).statusActive = some false :=
  verify_revoked_status (demoAgent none) (demoStore none) "S1" 50 5
    (demoRecord none) (demoCredential none) (by decide) (by decide)

/-- C5: a subject id with no stored record is treated as active
(fail-open): verifying a caller-supplied valid token for it reports
`status_active = true` instead of failing or reporting revoked. -/
theorem verify_unknown_status_fail_open (av : String → Option Credential)
    (store : Store) (studentId jwt : String) (vc : Credential) (now : Nat)
    (hnone : loadVC store studentId = none)
    (hjwt : jwt ≠ "")
    (hsig : av jwt = some vc) :
    (verifyStudentCredential av store studentId (some jwt) now).verified = true ∧
    (verifyStudentCredential av store studentId (some jwt) now).statusActive
      = some true := by
  have hbeq : (jwt == "") = false := beq_eq_false_iff_ne.mpr hjwt
  simp [verifyStudentCredential, jsFalsy, hbeq, hsig, hnone]

/-- Witness for C5: the `demo-jwt` token verified against an empty store
under the unrelated student id `S9`. -/
theorem verify_unknown_status_fail_open_witness :
    (verifyStudentCredential (demoAgent none) [] "S9" (some "demo-jwt")
        7).verified = true ∧
    (verifyStudentCredential (demoAgent none) [] "S9" (some "demo-jwt")
        7).statusActive = some true :=
  verify_unknown_status_fail_open (demoAgent none) [] "S9" "demo-jwt"
    (demoCredential none) 7 (by decide) (by decide) (by decide)

/-- C6: when no record is stored for the subject id and no token is
supplied, verification returns the recoverable not-found outcome: `verified
= false` with the `Credential not found` error, never a success (and, the
function being total, no crash). -/
theorem verify_store_miss_not_found (av : String → Option Credential)
    (store : Store) (studentId : String) (now : Nat)
    (hnone : loadVC store studentId = none) :
    (verifyStudentCredential av store studentId none now).verified = false ∧
    (verifyStudentCredential av store studentId none now).error
      = some ("Credential not found for student ID: " ++ studentId) := by
  simp [verifyStudentCredential, jsFalsy, hnone]

/-- Witness for C6: the empty store and the student id `S1`. -/
theorem verify_store_miss_not_found_witness :
    (verifyStudentCredential (fun _ => none) [] "S1" none 0).verified = false ∧
    (verifyStudentCredential (fun _ => none) [] "S1" none 0).error
      = some ("Credential not found for student ID: " ++ "S1") :=
  verify_store_miss_not_found (fun _ => none) [] "S1" 0 (by decide)

/-- C10: with an explicitly supplied token, the cryptographic verdict is
computed from that token only — it is the same over any two stores — and
`status_active` is computed from the record filed under the `studentId`
argument (true when that id has no record), not from the token's own
subject. -/
theorem verify_explicit_token_uses_argument_id (av : String → Option Credential)
    (store store' : Store) (studentId jwt : String) (now : Nat)
    (hjwt : jwt ≠ "") :
    ((verifyStudentCredential av store studentId (some jwt) now).verified
        = (verifyStudentCredential av store' studentId (some jwt) now).verified)
  ∧ (∀ vc, av jwt = some vc →
      (verifyStudentCredential av store studentId (some jwt) now).statusActive
        = some (match loadVC store studentId with
                | some r => r.status == "active"
                | none => true)) := by
  have hbeq : (jwt == "") = false := beq_eq_false_iff_ne.mpr hjwt
  constructor
  · cases hav : av jwt <;>
      simp [verifyStudentCredential, jsFalsy, hbeq, hav]
  · intro vc hav
    simp [verifyStudentCredential, jsFalsy, hbeq, hav]

/-- Witness for C10: the `demo-jwt` token, whose subject is `S1`, verified
under the argument id `S9` against a store that has no `S9` record; the
verdict matches the empty store's and the status is the fail-open `true`. -/
theorem verify_explicit_token_uses_argument_id_witness :
    ((verifyStudentCredential (demoAgent none) (demoStore none) "S9"
        (some "demo-jwt") 7).verified
      = (verifyStudentCredential (demoAgent none) [] "S9"
        (some "demo-jwt") 7).verified)
  ∧ (verifyStudentCredential (demoAgent none) (demoStore none) "S9"
        (some "demo-jwt") 7).statusActive
      = some (match loadVC (demoStore none) "S9" with
              | some r => r.status == "active"
              | none => true) :=
  ⟨(verify_explicit_token_uses_argument_id (demoAgent none) (demoStore none) []
      "S9" "demo-jwt" 7 (by decide)).1,
   (verify_explicit_token_uses_argument_id (demoAgent none) (demoStore none) []
      "S9" "demo-jwt" 7 (by decide)).2 (demoCredential none) (by decide)⟩

/-! ## Claims about the store and issuance -/

/-- C7: `updateVCStatus` returns `false` exactly when the subject id has no
stored record, in which case the store is untouched; on `true` the record's
`status` equals the requested status and `statusUpdatedAt` is set. -/
theorem updateVCStatus_contract (store : Store) (studentId status : String)
    (now : Nat) :
    ((updateVCStatus store studentId status now).2 = false
        ↔ loadVC store studentId = none)
  ∧ ((updateVCStatus store studentId status now).2 = false →
      (updateVCStatus store studentId status now).1 = store)
  ∧ (∀ rec, loadVC store studentId = some rec →
      (updateVCStatus store studentId status now).2 = true ∧
      loadVC (updateVCStatus store studentId status now).1 studentId
        = some { rec with status := status, statusUpdatedAt := some now }) := by
  cases hrec : loadVC store studentId with
  | none => simp [updateVCStatus, hrec]
  | some rec =>
      refine ⟨by simp [updateVCStatus, hrec], by simp [updateVCStatus, hrec],
        fun rec' hrec' => ?_⟩
      cases hrec'
      refine ⟨by simp [updateVCStatus, hrec], ?_⟩
      simp only [updateVCStatus, hrec]
      exact loadVC_writeVC_self ..

/-- Witness for C7: revoking `S1` in the store that holds it succeeds and
stamps the record. -/
theorem updateVCStatus_contract_witness :
    (updateVCStatus (demoStore none) "S1" "revoked" 7).2 = true ∧
    loadVC (updateVCStatus (demoStore none) "S1" "revoked" 7).1 "S1"
      = some { (demoRecord none) with
          status := "revoked"
          statusUpdatedAt := some 7 } :=
  (updateVCStatus_contract (demoStore none) "S1" "revoked" 7).2.2
    (demoRecord none) (by decide)

/-- C9: issuing again for a subject id overwrites its stored record with
`status: 'active'`, a fresh `issuedAt`, and no `statusUpdatedAt` — for any
prior store, so in particular a previously revoked subject is silently
un-revoked. -/
theorem issue_overwrites_and_resets_status (signJwt : Credential → String)
    (issuerDid : String) (store : Store) (sd : StudentData) (now : Nat) :
    loadVC (issueStudentCredential signJwt issuerDid store sd now).1 sd.studentId
      = some
        { studentId := sd.studentId
          credential := buildStudentCredential issuerDid sd now
          jwt := signJwt (buildStudentCredential issuerDid sd now)
          issuedAt := now
          status := "active"
          statusUpdatedAt := none } := by
  simp only [issueStudentCredential, saveVC]
  exact loadVC_writeVC_self ..

/-- C8 fails as stated: a caller claims mapping may itself contain an `id`
entry, and the JS spread `{ id: subject.did, ...credentialData }` lets it
overwrite the injected subject id, so the built subject's `id` is not the
subject's identifier. -/
theorem createCredentialPayload_id_overridden :
    objGet (createCredentialPayload "did:key:zissuer" "did:key:zalice"
        [("id", "did:key:zevil")] 0).credentialSubject "id"
      = some "did:key:zevil" ∧
    objGet (createCredentialPayload "did:key:zissuer" "did:key:zalice"
        [("id", "did:key:zevil")] 0).credentialSubject "id"
      ≠ some "did:key:zalice" := by
  constructor
  · rfl
  · decide

/-- C8 (amended): for every claims mapping that does not itself use the key
`id`, the builder is pure and produces a `credentialSubject` whose `id` is
the subject's identifier, the `subject_id` entry injected first and the
caller's claims merged after it. -/
theorem createCredentialPayload_subject (issuerDid subjectDid : String)
    (credentialData : List (String × String)) (now : Nat)
    (hnoid : ∀ p ∈ credentialData, p.1 ≠ "id") :
    (createCredentialPayload issuerDid subjectDid credentialData
        now).credentialSubject
      = ("id", subjectDid) :: jsObjOfEntries credentialData ∧
    objGet (createCredentialPayload issuerDid subjectDid credentialData
        now).credentialSubject "id" = some subjectDid := by
  have hsub : (createCredentialPayload issuerDid subjectDid credentialData
      now).credentialSubject
      = ("id", subjectDid) :: jsObjOfEntries credentialData := by
    show jsObjOfEntries (("id", subjectDid) :: credentialData) = _
    unfold jsObjOfEntries
    simp only [List.foldl]
    rw [show objInsert [] "id" subjectDid = [("id", subjectDid)] from rfl]
    exact foldl_objInsert_cons credentialData ("id", subjectDid) [] hnoid
  refine ⟨hsub, ?_⟩
  rw [hsub]
  simp [objGet, List.find?]

/-- Witness for C8 (amended) at the concrete claims of the spec's first
scenario. -/
theorem createCredentialPayload_subject_witness :
    (createCredentialPayload "did:key:zissuer" "did:key:zalice"
        [("name", "Alice"), ("title", "CS")] 0).credentialSubject
      = ("id", "did:key:zalice")
        :: jsObjOfEntries [("name", "Alice"), ("title", "CS")] ∧
    objGet (createCredentialPayload "did:key:zissuer" "did:key:zalice"
        [("name", "Alice"), ("title", "CS")] 0).credentialSubject "id"
      = some "did:key:zalice" :=
  createCredentialPayload_subject "did:key:zissuer" "did:key:zalice"
    [("name", "Alice"), ("title", "CS")] 0 (by decide)

/-! ## Claims about the token and the issuer identity -/

/-- C4: flipping any single byte of any of the three segments of a validly
issued token — replacing the byte at any position by a different byte —
makes the signature verification return `false`; a mutated token is never
accepted. -/
theorem single_byte_flip_rejected (key hd pl : String) (i : Nat) (c : Char) :
    (∀ (hi : i < hd.data.length), c ≠ hd.data[i] →
       agentVerify key
         ⟨flipAt hd i c, pl, (mkSignedToken key hd pl).sig⟩ = false)
  ∧ (∀ (hi : i < pl.data.length), c ≠ pl.data[i] →
       agentVerify key
         ⟨hd, flipAt pl i c, (mkSignedToken key hd pl).sig⟩ = false)
  ∧ (∀ (hi : i < (mkSignedToken key hd pl).sig.data.length),
       c ≠ (mkSignedToken key hd pl).sig.data[i] →
       agentVerify key
         ⟨hd, pl, flipAt (mkSignedToken key hd pl).sig i c⟩ = false) := by
  refine ⟨fun hi hc => ?_, fun hi hc => ?_, fun hi hc => ?_⟩
  · exact agentVerify_segment_change key hd pl _ _ _
      (Or.inr (Or.inl ⟨flipAt_ne hd i c hi hc, rfl, rfl⟩))
  · exact agentVerify_segment_change key hd pl _ _ _
      (Or.inr (Or.inr ⟨rfl, flipAt_ne pl i c hi hc, rfl⟩))
  · exact agentVerify_segment_change key hd pl _ _ _
      (Or.inl ⟨rfl, rfl, flipAt_ne _ i c hi hc⟩)

/-- Witness for C4: flip the first byte of each segment of a small concrete
token. -/
theorem single_byte_flip_rejected_witness :
    agentVerify "demo-key"
      ⟨flipAt "hh" 0 'X', "pp", (mkSignedToken "demo-key" "hh" "pp").sig⟩
        = false ∧
    agentVerify "demo-key"
      ⟨"hh", flipAt "pp" 0 'X', (mkSignedToken "demo-key" "hh" "pp").sig⟩
        = false ∧
    agentVerify "demo-key"
      ⟨"hh", "pp", flipAt (mkSignedToken "demo-key" "hh" "pp").sig 0 'X'⟩
        = false :=
  ⟨(single_byte_flip_rejected "demo-key" "hh" "pp" 0 'X').1
      (by decide) (by decide),
   (single_byte_flip_rejected "demo-key" "hh" "pp" 0 'X').2.1
      (by decide) (by decide),
   (single_byte_flip_rejected "demo-key" "hh" "pp" 0 'X').2.2
      (by decide) (by decide)⟩

/-- C2 fails on the creation path: two runs of `getFixedIssuer` that both
start with an empty issuer-key store use the same fixed seed, yet return
different DIDs, because the creation path derives the DID from
`didManagerCreate`'s fresh random key (here the explicit randomness 1
resp. 2) instead of from the seed-derived key it just imported. -/
theorem getFixedIssuer_fresh_run_drift :
    (getFixedIssuer none 1).1.did ≠ (getFixedIssuer none 2).1.did := by
  simp only [getFixedIssuer, didFromKey]
  decide

end VCService
